import Mathlib

/-!
Verification of the authentication token lifecycle of the papyrus.ai backend
against its design specification.

The development shallowly embeds the code of
`backend/src/services/auth_service.py`, `backend/src/api/v1/auth.py` and
`backend/src/core/config.py`:

- timestamps are natural numbers (seconds);
- the JOSE library (`jwt.encode` / `jwt.decode`) is modelled ideally: a signed
  token is a tamper-evident pair of its claims and the signing key; decoding
  with the right key recovers exactly the claims, decoding with a wrong key
  fails with an invalid-signature error, and an unparseable string fails with
  a malformed error.  `jose` validates the signature before the `exp` claim
  and treats a token as expired exactly when `exp < now` (zero leeway); the
  signing-algorithm identifier is the same configured value on the encode and
  decode side and is therefore not modelled;
- the `set` of invalidated jtis is a `Finset String`, passed in and out
  explicitly instead of living in a module-level global;
- the nondeterministic fresh `uuid4` jti of each issuance is an explicit
  parameter;
- Python truthiness of optional strings (`if jti and ...`, `if not username`)
  is modelled by `strTruthy`;
- the database of users visible to the refresh endpoint is a function from
  usernames to optional user records.
-/

namespace Papyrus

/-! ## Configuration (`backend/src/core/config.py`) -/

/-- The fields of `Settings` the token authority consumes. -/
structure Settings where
  secret_key : String
  algorithm : String := "HS256"
  access_token_expire_minutes : Nat := 30
  refresh_token_expire_days : Nat := 7
  environment : String := "development"
deriving DecidableEq, Repr

/-- The list of default or weak secret keys `Settings.__init__` warns about. -/
def weak_keys : List String :=
  [ "your-secret-key-change-in-production"
  , "your-super-secret-key-change-in-production-please"
  , "secret"
  , "development"
  , "test"
  , "password" ]

/-- Outcome of the validation in `Settings.__init__`: construction raised a
`ValueError`, succeeded but logged a weak-key warning, or succeeded silently. -/
inductive InitResult
  | fatal (msg : String)
  | okWithWarning
  | ok
deriving DecidableEq, Repr

/-- The validation performed by `Settings.__init__` (config.py lines 39-67):
reject a secret key shorter than 32 characters; then, if the key is one of the
known weak defaults, raise in the `production` environment and only warn
otherwise. -/
def settingsInit (secret_key : String) (environment : String) : InitResult :=
  if secret_key.length < 32 then
    .fatal "SECRET_KEY must be at least 32 characters long"
  else if secret_key ∈ weak_keys then
    if environment = "production" then
      .fatal "Using a default or weak SECRET_KEY in production is not allowed!"
    else
      .okWithWarning
  else
    .ok

/-! ## Tokens and the JOSE model -/

/-- The claims dictionary of a token as the code reads it with `payload.get`:
each claim may be absent. -/
structure Payload where
  sub : Option String := none
  exp : Option Nat := none
  jti : Option String := none
  type : Option String := none
deriving DecidableEq, Repr

/-- A token string: either a well-formed JWS produced by `jwt.encode` from a
claims dictionary and a signing key, or a string that does not parse as a
token at all. -/
inductive Token
  | signed (payload : Payload) (key : String)
  | garbage (s : String)
deriving DecidableEq, Repr

/-- Errors `jose.jwt.decode` raises, all subclasses of `JWTError`. -/
inductive JoseError
  | invalidSignature
  | expiredSignature
  | malformed
deriving DecidableEq, Repr

/-- Ideal model of `jose.jwt.decode(token, key, algorithms=[...])` at time
`now`: an unparseable string is malformed; a signature made with a different
key does not validate; an `exp` claim strictly in the past raises
`ExpiredSignatureError` (jose compares `exp < now` with zero leeway); otherwise
the original claims are returned. -/
def jwtDecode (tok : Token) (key : String) (now : Nat) : Except JoseError Payload :=
  match tok with
  | .garbage _ => .error .malformed
  | .signed p k =>
    if k = key then
      match p.exp with
      | none => .ok p
      | some e => if e < now then .error .expiredSignature else .ok p
    else
      .error .invalidSignature

/-- Python truthiness of a `str | None` value: `None` and `""` are falsy. -/
def strTruthy : Option String → Bool
  | none => false
  | some s => !s.isEmpty

/-! ## The auth service (`backend/src/services/auth_service.py`) -/

def TOKEN_TYPE_ACCESS : String := "access"

def TOKEN_TYPE_REFRESH : String := "refresh"

/-- Embedding of `AuthService.create_access_token`: copy the data (a `sub` claim at every
call site), pick a fresh jti, compute the expiry from `expires_delta` when that
timedelta is truthy (a zero delta is falsy in Python and falls back to the
configured default, like `None`), and sign.  Returns the encoded token and the
jti. -/
def create_access_token (sub : String) (expires_delta : Option Nat) (jti : String)
    (now : Nat) (s : Settings) : Token × String :=
  let expire : Nat :=
    match expires_delta with
    | some d => if d = 0 then now + s.access_token_expire_minutes * 60 else now + d
    | none => now + s.access_token_expire_minutes * 60
  (Token.signed
     { sub := some sub, exp := some expire, jti := some jti,
       type := some TOKEN_TYPE_ACCESS }
     s.secret_key,
   jti)

/-- Embedding of `AuthService.create_refresh_token`: same shape with the refresh type tag
and the day-based TTL (modelled in seconds). -/
def create_refresh_token (sub : String) (jti : String) (now : Nat) (s : Settings) :
    Token × String :=
  (Token.signed
     { sub := some sub, exp := some (now + s.refresh_token_expire_days * 86400),
       jti := some jti, type := some TOKEN_TYPE_REFRESH }
     s.secret_key,
   jti)

/-- The guard `if jti and jti in invalidated_tokens` of `verify_token`. -/
def jtiRevoked (jti : Option String) (invalidated : Finset String) : Bool :=
  match jti with
  | none => false
  | some j => !j.isEmpty && decide (j ∈ invalidated)

/-- The guard `if token_type and payload.get("type") != token_type` of
`verify_token`. -/
def typeMismatch (token_type : Option String) (pType : Option String) : Bool :=
  match token_type with
  | none => false
  | some t => !t.isEmpty && decide (pType ≠ some t)

/-- Embedding of `AuthService.verify_token(token, token_type)` over the registry
`invalidated` at time `now`: decode (any `JWTError` is caught and yields
`None`), then reject a truthy jti found in the registry, then reject a type
mismatch when a type was requested; otherwise return the payload.  Every
failure path returns `None`. -/
def verify_token (token : Token) (token_type : Option String)
    (invalidated : Finset String) (key : String) (now : Nat) : Option Payload :=
  match jwtDecode token key now with
  | .error _ => none
  | .ok payload =>
    if jtiRevoked payload.jti invalidated then none
    else if typeMismatch token_type payload.type then none
    else some payload

/-- Embedding of `AuthService.invalidate_token(jti)`: add the jti to the registry.  Total:
it cannot fail. -/
def invalidate_token (jti : String) (invalidated : Finset String) : Finset String :=
  insert jti invalidated

/-- The error kinds named by the specification for `verify`. -/
inductive VerifyError
  | invalidSignature
  | expired
  | malformed
  | wrongType
  | revoked
deriving DecidableEq, Repr

/-- Instrumented `verify_token`, for comparison with the specification: the
same checks in the same order as `AuthService.verify_token`, but recording
which check failed using the specification's error vocabulary instead of
collapsing every failure to `None`. -/
def verifyTokenE (token : Token) (token_type : Option String)
    (invalidated : Finset String) (key : String) (now : Nat) :
    Except VerifyError Payload :=
  match jwtDecode token key now with
  | .error .invalidSignature => .error .invalidSignature
  | .error .expiredSignature => .error .expired
  | .error .malformed => .error .malformed
  | .ok payload =>
    if jtiRevoked payload.jti invalidated then .error .revoked
    else if typeMismatch token_type payload.type then .error .wrongType
    else .ok payload

/-- Forget the error information of an `Except`, as `verify_token` does. -/
def exceptToOption : Except ε α → Option α
  | .ok a => some a
  | .error _ => none

/-- Whether an `Except` is a success. -/
def exceptIsOk : Except ε α → Bool
  | .ok _ => true
  | .error _ => false

/-! ## The credential store (`AuthService.verify_password` and the passlib
collaborator) -/

/-- A password-hash input as the passlib bcrypt backend classifies it: either
a well-formed bcrypt hash string, carrying its embedded salt and the digest
stored for that salt, or a string not in any recognized hash format (malformed,
truncated, or of the wrong scheme). -/
inductive HashInput
  | bcrypt (salt : String) (digest : String)
  | unrecognized (s : String)
deriving DecidableEq, Repr

/-- The exception passlib raises when a hash string cannot be identified as
any configured scheme (`passlib.exc.UnknownHashError`, a `ValueError`). -/
inductive PasslibError
  | unknownHash
deriving DecidableEq, Repr

/-- Abstract stand-in for the bcrypt key-derivation of a password under a
salt.  None of the properties proved here depend on its cryptographic
qualities, only on the shape of the passlib control flow around it. -/
def bcryptDigest (password : String) (salt : String) : String :=
  salt ++ "|" ++ password

/-- Model of the third-party `passlib.context.CryptContext.verify` (an
external collaborator; its code is not part of this repository).  Per its
documented contract it recomputes the digest of the candidate password under
the hash's own salt and compares for a recognizable hash, and raises
`UnknownHashError` when the hash string cannot be identified as any configured
scheme. -/
def pwd_context_verify (plain : String) (hash : HashInput) : Except PasslibError Bool :=
  match hash with
  | .bcrypt salt digest => .ok (decide (bcryptDigest plain salt = digest))
  | .unrecognized _ => .error .unknownHash

/-- Embedding of `AuthService.verify_password` (auth_service.py lines 38-42): a direct
delegation to `pwd_context.verify` with no exception handling, so any
exception of the backend propagates to the caller. -/
def verify_password (plain_password : String) (hashed_password : HashInput) :
    Except PasslibError Bool :=
  pwd_context_verify plain_password hashed_password

/-! ## The HTTP endpoints (`backend/src/api/v1/auth.py`) -/

/-- The slice of a user row the refresh endpoint consults. -/
structure User where
  username : String
  is_active : Bool
deriving DecidableEq, Repr

/-- The rotation step of the refresh endpoint: `if old_jti:
AuthService.invalidate_token(old_jti)` (auth.py lines 373-376). -/
def revokeTruthyJti (jti : Option String) (invalidated : Finset String) :
    Finset String :=
  if strTruthy jti then invalidate_token (jti.getD "") invalidated else invalidated

/-- The `POST /auth/refresh` endpoint (auth.py lines 311-405), with the cookie
jar, the user database, the two fresh jtis and the clock made explicit.
Returns the HTTP outcome — the new access and refresh tokens on success, the
401 detail string on failure — paired with the registry state after the call.
Missing cookie, failed verification, a falsy `sub` claim, and a missing or
inactive user each abort with 401 before any state change; on the success path
the old token's jti is revoked when truthy and a fresh pair is issued. -/
def refresh_token (cookie : Option Token) (db : String → Option User)
    (accessJti refreshJti : String) (s : Settings) (invalidated : Finset String)
    (now : Nat) : Except String (Token × Token) × Finset String :=
  match cookie with
  | none => (.error "Refresh token not found", invalidated)
  | some tok =>
    match verify_token tok (some TOKEN_TYPE_REFRESH) invalidated s.secret_key now with
    | none => (.error "Invalid refresh token", invalidated)
    | some payload =>
      if !strTruthy payload.sub then (.error "Invalid refresh token", invalidated)
      else
        let username := payload.sub.getD ""
        match db username with
        | none => (.error "User not found or inactive", invalidated)
        | some user =>
          if !user.is_active then (.error "User not found or inactive", invalidated)
          else
            let invalidated' := revokeTruthyJti payload.jti invalidated
            let newAccess := (create_access_token username none accessJti now s).1
            let newRefresh := (create_refresh_token username refreshJti now s).1
            (.ok (newAccess, newRefresh), invalidated')

/-- Embedding of `_safely_invalidate_token` (auth.py lines 74-124): skip a falsy cookie,
verify the token with the expected type, and when verification succeeds and
the payload carries a truthy jti, add it to the registry; every failure is
swallowed and leaves the registry untouched. -/
def safely_invalidate_token (token : Option Token) (token_type : String)
    (invalidated : Finset String) (key : String) (now : Nat) : Finset String :=
  match token with
  | none => invalidated
  | some tok =>
    match verify_token tok (some token_type) invalidated key now with
    | none => invalidated
    | some payload => revokeTruthyJti payload.jti invalidated

/-- The `POST /auth/logout` endpoint (auth.py lines 465-504): safely
invalidate the access cookie, then the refresh cookie. -/
def logout (access_cookie refresh_cookie : Option Token)
    (invalidated : Finset String) (key : String) (now : Nat) : Finset String :=
  safely_invalidate_token refresh_cookie TOKEN_TYPE_REFRESH
    (safely_invalidate_token access_cookie TOKEN_TYPE_ACCESS invalidated key now)
    key now

/-- Concrete settings used by the closed witness theorems: a 32-character
secret key that is not on the weak list, with the configured defaults. -/
def demoSettings : Settings :=
  { secret_key := "0123456789abcdef0123456789abcdef" }

/-- Concrete one-user database used by the closed witness theorems. -/
def demoDb : String → Option User :=
  fun u => if u = "alice" then some { username := "alice", is_active := true } else none

/-! ## General lemmas about the embedding -/

/-- A string different from the empty string is not empty. -/
theorem isEmpty_false_of_ne {j : String} (hj : j ≠ "") : j.isEmpty = false := by
  cases he : j.isEmpty
  · rfl
  · exact absurd ((String.isEmpty_iff j).1 he) hj

/-- Decoding a signed token successfully returns exactly the signed claims and
requires the matching key. -/
theorem jwtDecode_signed_ok {p q : Payload} {k key : String} {now : Nat}
    (h : jwtDecode (Token.signed p k) key now = .ok q) : q = p ∧ k = key := by
  by_cases hk : k = key
  · refine ⟨?_, hk⟩
    simp only [jwtDecode, hk, if_true] at h
    cases he : p.exp with
    | none => simp only [he] at h; exact (Except.ok.injEq _ _ ▸ h).symm
    | some e =>
      simp only [he] at h
      by_cases hlt : e < now
      · simp [hlt] at h
      · simp only [hlt, if_false, if_neg hlt] at h
        exact (Except.ok.injEq _ _ ▸ h).symm
  · simp [jwtDecode, hk] at h

/-- A successful `verify_token` comes from a successful decode of the same
payload. -/
theorem verify_token_some_decode {tok : Token} {tt : Option String}
    {inv : Finset String} {key : String} {now : Nat} {q : Payload}
    (h : verify_token tok tt inv key now = some q) :
    jwtDecode tok key now = .ok q := by
  unfold verify_token at h
  cases hd : jwtDecode tok key now with
  | error e => rw [hd] at h; simp at h
  | ok p =>
    rw [hd] at h
    dsimp only at h
    by_cases h1 : jtiRevoked p.jti inv = true
    · simp [h1] at h
    · by_cases h2 : typeMismatch tt p.type = true
      · simp [h1, h2] at h
      · rw [if_neg h1, if_neg h2, Option.some.injEq] at h
        rw [h]

/-- A nonempty optional string is truthy. -/
theorem strTruthy_some {j : String} (hj : j ≠ "") : strTruthy (some j) = true := by
  simp [strTruthy, isEmpty_false_of_ne hj]

/-- A falsy jti never trips the revocation guard. -/
theorem jtiRevoked_false_of_falsy {j : Option String} (hj : strTruthy j = false)
    (inv : Finset String) : jtiRevoked j inv = false := by
  cases j with
  | none => rfl
  | some s =>
    simp only [strTruthy, Bool.not_eq_true'] at hj
    simp [jtiRevoked, hj]

/-- A jti outside the registry never trips the revocation guard. -/
theorem jtiRevoked_false_of_notMem {j : String} {inv : Finset String}
    (h : j ∉ inv) : jtiRevoked (some j) inv = false := by
  simp [jtiRevoked, h]

/-- A truthy jti inside the registry trips the revocation guard. -/
theorem jtiRevoked_true {j : String} {inv : Finset String} (hj : j ≠ "")
    (h : j ∈ inv) : jtiRevoked (some j) inv = true := by
  simp [jtiRevoked, h, isEmpty_false_of_ne hj]

/-- The type guard passes when the payload carries exactly the requested
type. -/
theorem typeMismatch_false_of_eq (t : String) :
    typeMismatch (some t) (some t) = false := by
  simp [typeMismatch]

/-- The registry can only grow across `revokeTruthyJti`. -/
theorem subset_revokeTruthyJti (j : Option String) (inv : Finset String) :
    inv ⊆ revokeTruthyJti j inv := by
  unfold revokeTruthyJti invalidate_token
  split
  · exact Finset.subset_insert _ _
  · exact Finset.Subset.refl _

/-- The registry can only grow across `safely_invalidate_token`. -/
theorem subset_safely_invalidate_token (tok : Option Token) (tt : String)
    (inv : Finset String) (key : String) (now : Nat) :
    inv ⊆ safely_invalidate_token tok tt inv key now := by
  cases tok with
  | none => exact Finset.Subset.refl _
  | some t =>
    simp only [safely_invalidate_token]
    cases verify_token t (some tt) inv key now with
    | none => exact Finset.Subset.refl _
    | some p => exact subset_revokeTruthyJti _ _

/-- The registry can only grow across the refresh endpoint. -/
theorem subset_refresh_token (cookie : Option Token) (db : String → Option User)
    (aj rj : String) (s : Settings) (inv : Finset String) (now : Nat) :
    inv ⊆ (refresh_token cookie db aj rj s inv now).2 := by
  cases cookie with
  | none => exact Finset.Subset.refl _
  | some tok =>
    simp only [refresh_token]
    cases verify_token tok (some TOKEN_TYPE_REFRESH) inv s.secret_key now with
    | none => exact Finset.Subset.refl _
    | some payload =>
      dsimp only
      by_cases hs : (!strTruthy payload.sub) = true
      · rw [if_pos hs]
      · rw [if_neg hs]
        cases db (payload.sub.getD "") with
        | none => exact Finset.Subset.refl _
        | some user =>
          by_cases ha : (!user.is_active) = true
          · simp only [if_pos ha]; exact Finset.Subset.refl _
          · simp only [if_neg ha]; exact subset_revokeTruthyJti _ _

/-- Decoding a signed token with the signing key succeeds when the expiry is
not strictly in the past. -/
theorem jwtDecode_ok_of_unexpired {p : Payload} {key : String} {now : Nat}
    (hexp : ∀ e, p.exp = some e → ¬e < now) :
    jwtDecode (Token.signed p key) key now = .ok p := by
  unfold jwtDecode
  dsimp only
  rw [if_pos rfl]
  cases he : p.exp with
  | none => rfl
  | some e => dsimp only; rw [if_neg (hexp e he)]

/-- Verification succeeds when decoding does and neither the revocation nor
the type guard trips. -/
theorem verify_token_ok_of_decode {p : Payload} {key : String}
    {tt : Option String} {inv : Finset String} {now : Nat}
    (hdec : jwtDecode (Token.signed p key) key now = .ok p)
    (hrev : jtiRevoked p.jti inv = false)
    (htt : typeMismatch tt p.type = false) :
    verify_token (Token.signed p key) tt inv key now = some p := by
  unfold verify_token
  rw [hdec]
  dsimp only
  rw [if_neg (by simp [hrev]), if_neg (by simp [htt])]

/-- The shape of a freshly created access token: signed claims whose expiry is
not before the issuance instant, whichever branch of `expires_delta` was
taken. -/
theorem access_token_shape (sub : String) (delta : Option Nat) (jti : String)
    (now : Nat) (s : Settings) :
    ∃ e, (create_access_token sub delta jti now s).1
        = Token.signed
            { sub := some sub, exp := some e, jti := some jti,
              type := some TOKEN_TYPE_ACCESS } s.secret_key
      ∧ now ≤ e := by
  cases delta with
  | none =>
    exact ⟨now + s.access_token_expire_minutes * 60, rfl, Nat.le_add_right _ _⟩
  | some d =>
    by_cases hd : d = 0
    · subst hd
      exact ⟨now + s.access_token_expire_minutes * 60,
        by simp [create_access_token], Nat.le_add_right _ _⟩
    · exact ⟨now + d, by simp [create_access_token, hd], Nat.le_add_right _ _⟩

/-- Verification with a requested kind the payload does not carry returns
`none`, whatever the registry and the clock say. -/
theorem verify_token_wrong_type_none {p : Payload} {key : String} {t : String}
    (ht : p.type ≠ some t) (hte : t ≠ "") (inv : Finset String) (now : Nat) :
    verify_token (Token.signed p key) (some t) inv key now = none := by
  unfold verify_token
  cases hd : jwtDecode (Token.signed p key) key now with
  | error e => rfl
  | ok q =>
    obtain ⟨hq, -⟩ := jwtDecode_signed_ok hd
    subst hq
    dsimp only
    by_cases h1 : jtiRevoked q.jti inv = true
    · rw [if_pos h1]
    · rw [if_neg h1,
        if_pos (by simp [typeMismatch, isEmpty_false_of_ne hte, ht])]

/-- When decoding succeeds and the jti is not revoked, a mismatching requested
kind is reported by the instrumented verifier as a wrong-type failure. -/
theorem verifyTokenE_wrong_type {p : Payload} {key t : String}
    {inv : Finset String} {now : Nat}
    (hdec : jwtDecode (Token.signed p key) key now = .ok p)
    (hrev : jtiRevoked p.jti inv = false)
    (ht : p.type ≠ some t) (hte : t ≠ "") :
    verifyTokenE (Token.signed p key) (some t) inv key now
      = .error .wrongType := by
  unfold verifyTokenE
  rw [hdec]
  dsimp only
  rw [if_neg (by simp [hrev]),
    if_pos (by simp [typeMismatch, isEmpty_false_of_ne hte, ht])]

/-- Concrete payload used by closed witness theorems. -/
def demoPayload : Payload :=
  { sub := some "alice", exp := some 100, jti := some "j1",
    type := some TOKEN_TYPE_ACCESS }

/-- Concrete refresh payload with a falsy jti, used by closed witness
theorems. -/
def demoJtilessPayload : Payload :=
  { sub := some "alice", exp := some 100, jti := some "",
    type := some TOKEN_TYPE_REFRESH }

/-- A falsy jti is not revoked by the rotation step. -/
theorem revokeTruthyJti_falsy {j : Option String} (hj : strTruthy j = false)
    (inv : Finset String) : revokeTruthyJti j inv = inv := by
  unfold revokeTruthyJti
  rw [if_neg (by simp [hj])]

/-- A truthy jti is inserted into the registry by the rotation step. -/
theorem revokeTruthyJti_some {j : String} (hj : j ≠ "") (inv : Finset String) :
    revokeTruthyJti (some j) inv = insert j inv := by
  unfold revokeTruthyJti
  rw [if_pos (strTruthy_some hj)]
  rfl

/-- When the presented refresh token fails verification, the refresh endpoint
answers 401 and leaves the registry unchanged. -/
theorem refresh_token_verify_none {tok : Token} {s : Settings}
    {db : String → Option User} {aj rj : String} {inv : Finset String}
    {now : Nat}
    (hv : verify_token tok (some TOKEN_TYPE_REFRESH) inv s.secret_key now
        = none) :
    refresh_token (some tok) db aj rj s inv now
      = (.error "Invalid refresh token", inv) := by
  simp only [refresh_token]
  rw [hv]

/-- The success path of the refresh endpoint: verified payload with truthy
subject, an active user, and the rotation of the old jti. -/
theorem refresh_token_success {p : Payload} {s : Settings}
    {db : String → Option User} {aj rj : String} {inv : Finset String}
    {now : Nat} {u : User}
    (hv : verify_token (Token.signed p s.secret_key) (some TOKEN_TYPE_REFRESH)
        inv s.secret_key now = some p)
    (hsub : strTruthy p.sub = true)
    (hdb : db (p.sub.getD "") = some u)
    (hact : u.is_active = true) :
    refresh_token (some (Token.signed p s.secret_key)) db aj rj s inv now
      = (.ok ((create_access_token (p.sub.getD "") none aj now s).1,
              (create_refresh_token (p.sub.getD "") rj now s).1),
         revokeTruthyJti p.jti inv) := by
  simp only [refresh_token]
  rw [hv]
  dsimp only
  rw [if_neg (by simp [hsub]), hdb]
  dsimp only
  rw [if_neg (by simp [hact])]

/-- A successful refresh leaves the registry at exactly the rotation of the
presented token's jti. -/
theorem refresh_token_ok_registry {p : Payload} {s : Settings}
    {db : String → Option User} {aj rj : String} {inv : Finset String}
    {now : Nat} {pr : Token × Token}
    (h1 : (refresh_token (some (Token.signed p s.secret_key)) db aj rj s inv
        now).1 = .ok pr) :
    (refresh_token (some (Token.signed p s.secret_key)) db aj rj s inv now).2
      = revokeTruthyJti p.jti inv := by
  cases hv : verify_token (Token.signed p s.secret_key)
      (some TOKEN_TYPE_REFRESH) inv s.secret_key now with
  | none =>
    rw [refresh_token_verify_none hv] at h1
    simp at h1
  | some q =>
    obtain ⟨hq, -⟩ := jwtDecode_signed_ok (verify_token_some_decode hv)
    subst hq
    simp only [refresh_token] at h1 ⊢
    rw [hv] at h1 ⊢
    dsimp only at h1 ⊢
    by_cases hs : (!strTruthy q.sub) = true
    · rw [if_pos hs] at h1; simp at h1
    · rw [if_neg hs] at h1 ⊢
      cases hdb : db (q.sub.getD "") with
      | none =>
        rw [hdb] at h1
        simp at h1
      | some u =>
        rw [hdb] at h1
        dsimp only at h1 ⊢
        by_cases ha : (!u.is_active) = true
        · rw [if_pos ha] at h1; simp at h1
        · rw [if_neg ha]

/-! ## The claims -/

/-- C2 counterexample: `verify_token` does not fail with a distinguishable
error kind.  A token whose signature does not validate and an expired token
produce the very same result (`none`), even though the instrumented checks
show the causes differ, so the cause cannot be identified from the result of
`verify_token`; moreover at the boundary `now = exp` verification succeeds,
where the claim demands an `EXPIRED` failure for `now >= exp`. -/
theorem verify_error_kinds_indistinguishable :
    verify_token (Token.signed { exp := some 100 } "otherkey")
        (some TOKEN_TYPE_ACCESS) ∅ demoSettings.secret_key 50
      = verify_token (Token.signed { exp := some 1 } demoSettings.secret_key)
        (some TOKEN_TYPE_ACCESS) ∅ demoSettings.secret_key 50
    ∧ verifyTokenE (Token.signed { exp := some 100 } "otherkey")
        (some TOKEN_TYPE_ACCESS) ∅ demoSettings.secret_key 50
      = .error .invalidSignature
    ∧ verifyTokenE (Token.signed { exp := some 1 } demoSettings.secret_key)
        (some TOKEN_TYPE_ACCESS) ∅ demoSettings.secret_key 50
      = .error .expired
    ∧ verify_token
        (Token.signed
          { sub := some "alice", exp := some 50, jti := some "j1",
            type := some TOKEN_TYPE_ACCESS } demoSettings.secret_key)
        (some TOKEN_TYPE_ACCESS) ∅ demoSettings.secret_key 50
      = some
          { sub := some "alice", exp := some 50, jti := some "j1",
            type := some TOKEN_TYPE_ACCESS } :=
  ⟨rfl, rfl, rfl, rfl⟩

/-- C2 (amended): `verify_token` fails exactly when one of the checks fails —
unvalidatable signature, expiry strictly in the past (`exp < now`, not
`now >= exp`), unparseable structure, revoked truthy jti (checked before the
type), or type mismatch — but collapses every cause to the single value
`none`; on success it returns the claims.  This is the refinement of
`verify_token` by the instrumented `verifyTokenE`, which records the
specification's error kind of the failing check. -/
theorem verify_token_failure_characterization (token : Token)
    (tt : Option String) (inv : Finset String) (key : String) (now : Nat) :
    verify_token token tt inv key now
      = exceptToOption (verifyTokenE token tt inv key now) := by
  unfold verify_token verifyTokenE
  cases jwtDecode token key now with
  | error e => cases e <;> rfl
  | ok p =>
    dsimp only
    by_cases h1 : jtiRevoked p.jti inv = true
    · rw [if_pos h1, if_pos h1]; rfl
    · rw [if_neg h1, if_neg h1]
      by_cases h2 : typeMismatch tt p.type = true
      · rw [if_pos h2, if_pos h2]; rfl
      · rw [if_neg h2, if_neg h2]; rfl

/-- C3 counterexample: on a hash input the backend cannot parse,
`verify_password` does not return `false` — the backend's `UnknownHashError`
propagates uncaught, so the call raises. -/
theorem verify_password_raises_on_malformed :
    verify_password "p@ss1234" (HashInput.unrecognized "not-a-valid-hash")
      = .error .unknownHash := rfl

/-- C3 (amended): for a recognizable bcrypt hash, `verify_password` returns
the boolean outcome of recomputing the digest under the hash's own salt; for a
malformed or unrecognizable hash it propagates the backend's
`UnknownHashError` instead of returning `false`, because it delegates to
`pwd_context.verify` with no exception handling. -/
theorem verify_password_behavior :
    (∀ plain salt digest, verify_password plain (HashInput.bcrypt salt digest)
        = .ok (decide (bcryptDigest plain salt = digest)))
    ∧ ∀ plain s, verify_password plain (HashInput.unrecognized s)
        = .error .unknownHash :=
  ⟨fun _ _ _ => rfl, fun _ _ => rfl⟩

/-- C4 counterexample: a known-weak (but 32-character-long) key in the
non-development environment `staging` does not fail construction — it only
produces a warning, where the claim demands a fatal error in every
non-development environment. -/
theorem weak_key_staging_only_warns :
    settingsInit "your-secret-key-change-in-production" "staging"
      = .okWithWarning
    ∧ ("staging" : String) ≠ "development" := by
  exact ⟨by decide, by decide⟩

/-- C4 (amended): configuration construction fails whenever the signing key is
shorter than 32 characters, in every environment; a known-weak key of
sufficient length is a fatal error only when the environment is exactly
`production`, and in every other environment (development, staging, …)
construction succeeds with a warning; a long non-weak key passes silently. -/
theorem settingsInit_characterization :
    (∀ key env, key.length < 32 →
        settingsInit key env
          = .fatal "SECRET_KEY must be at least 32 characters long")
    ∧ (∀ key env, ¬key.length < 32 → key ∈ weak_keys →
        settingsInit key env
          = if env = "production" then
              .fatal "Using a default or weak SECRET_KEY in production is not allowed!"
            else .okWithWarning)
    ∧ (∀ key env, ¬key.length < 32 → key ∉ weak_keys →
        settingsInit key env = .ok) := by
  refine ⟨fun key env h => ?_, fun key env h hw => ?_, fun key env h hw => ?_⟩
  · simp [settingsInit, h]
  · simp [settingsInit, h, hw]
  · simp [settingsInit, h, hw]

/-- C4 witness: the three branches of the characterization at concrete
inputs. -/
theorem settingsInit_characterization_witness :
    settingsInit "short" "staging"
      = .fatal "SECRET_KEY must be at least 32 characters long"
    ∧ settingsInit "your-secret-key-change-in-production" "production"
      = .fatal "Using a default or weak SECRET_KEY in production is not allowed!"
    ∧ settingsInit demoSettings.secret_key "production" = .ok := by
  refine ⟨settingsInit_characterization.1 "short" "staging" (by decide), ?_,
    settingsInit_characterization.2.2 demoSettings.secret_key "production"
      (by decide) (by decide)⟩
  have h := settingsInit_characterization.2.1
    "your-secret-key-change-in-production" "production" (by decide) (by decide)
  simpa using h

/-- C8 counterexample: the revocation of the empty-string token id is not
enforced by `verify_token` — after revoking `""` (twice, idempotently), a
well-signed unexpired token whose payload carries `jti = ""` still verifies
successfully, because the guard `if jti and jti in invalidated_tokens` skips
falsy jtis. -/
theorem revoke_empty_jti_not_enforced :
    invalidate_token "" (invalidate_token "" (∅ : Finset String))
      = invalidate_token "" ∅
    ∧ verify_token
        (Token.signed
          { sub := some "alice", exp := some 100, jti := some "",
            type := some TOKEN_TYPE_ACCESS } demoSettings.secret_key)
        (some TOKEN_TYPE_ACCESS) (invalidate_token "" ∅)
        demoSettings.secret_key 0
      = some
          { sub := some "alice", exp := some 100, jti := some "",
            type := some TOKEN_TYPE_ACCESS } := by
  decide

/-- C8 (amended): `invalidate_token` is idempotent and total for every token
id; and for every nonempty token id, every subsequent verification of a
well-signed unexpired token carrying it fails, the failing check being the
revocation one. -/
theorem revoke_idempotent_and_enforced (jti : String) (inv : Finset String)
    (p : Payload) (key : String) (tt : Option String) (now : Nat)
    (hj : p.jti = some jti) (hne : jti ≠ "")
    (hdec : jwtDecode (Token.signed p key) key now = .ok p) :
    invalidate_token jti (invalidate_token jti inv) = invalidate_token jti inv
    ∧ verifyTokenE (Token.signed p key) tt (invalidate_token jti inv) key now
      = .error .revoked
    ∧ verify_token (Token.signed p key) tt (invalidate_token jti inv) key now
      = none := by
  have hrev : jtiRevoked p.jti (invalidate_token jti inv) = true := by
    rw [hj]; exact jtiRevoked_true hne (Finset.mem_insert_self _ _)
  refine ⟨Finset.insert_idem _ _, ?_, ?_⟩
  · unfold verifyTokenE
    rw [hdec]
    dsimp only
    rw [if_pos hrev]
  · unfold verify_token
    rw [hdec]
    dsimp only
    rw [if_pos hrev]

/-- C8 witness: the amended statement at a concrete nonempty token id. -/
theorem revoke_idempotent_and_enforced_witness :
    invalidate_token "j1" (invalidate_token "j1" (∅ : Finset String))
      = invalidate_token "j1" ∅
    ∧ verifyTokenE (Token.signed demoPayload demoSettings.secret_key)
        (some TOKEN_TYPE_ACCESS) (invalidate_token "j1" ∅)
        demoSettings.secret_key 0
      = .error .revoked
    ∧ verify_token (Token.signed demoPayload demoSettings.secret_key)
        (some TOKEN_TYPE_ACCESS) (invalidate_token "j1" ∅)
        demoSettings.secret_key 0
      = none :=
  revoke_idempotent_and_enforced "j1" ∅ demoPayload demoSettings.secret_key
    (some TOKEN_TYPE_ACCESS) 0 rfl (by decide) rfl

/-- C1: a refresh token issued by the authority (whose jti is the fresh
nonempty uuid) is usable at most once.  Whenever a rotation call on it
succeeds, its jti lands in the registry the call returns; presenting the very
same token a second time then fails — whatever database, fresh jtis or clock
the second call sees — and when the token is still unexpired at the second
call, the instrumented verifier reports the failure as the revocation
check. -/
theorem rotate_single_use (sub j : String) (now₀ : Nat) (s : Settings)
    (db db' : String → Option User) (aj rj aj' rj' : String)
    (inv : Finset String) (now now₂ : Nat) (pair : Token × Token)
    (hj : j ≠ "")
    (h1 : (refresh_token (some (create_refresh_token sub j now₀ s).1)
        db aj rj s inv now).1 = .ok pair) :
    j ∈ (refresh_token (some (create_refresh_token sub j now₀ s).1)
        db aj rj s inv now).2
    ∧ exceptIsOk (refresh_token (some (create_refresh_token sub j now₀ s).1)
        db' aj' rj' s
        ((refresh_token (some (create_refresh_token sub j now₀ s).1)
          db aj rj s inv now).2) now₂).1 = false
    ∧ (¬now₀ + s.refresh_token_expire_days * 86400 < now₂ →
        verifyTokenE (create_refresh_token sub j now₀ s).1
          (some TOKEN_TYPE_REFRESH)
          ((refresh_token (some (create_refresh_token sub j now₀ s).1)
            db aj rj s inv now).2)
          s.secret_key now₂ = .error .revoked) := by
  have htok : (create_refresh_token sub j now₀ s).1
      = Token.signed
          { sub := some sub,
            exp := some (now₀ + s.refresh_token_expire_days * 86400),
            jti := some j, type := some TOKEN_TYPE_REFRESH } s.secret_key := rfl
  rw [htok] at h1 ⊢
  have hreg := refresh_token_ok_registry h1
  rw [hreg]
  have hrj : revokeTruthyJti
      (Payload.jti
        { sub := some sub,
          exp := some (now₀ + s.refresh_token_expire_days * 86400),
          jti := some j, type := some TOKEN_TYPE_REFRESH }) inv
      = insert j inv := revokeTruthyJti_some hj inv
  rw [hrj]
  refine ⟨Finset.mem_insert_self _ _, ?_, ?_⟩
  · have hv2 : verify_token
        (Token.signed
          { sub := some sub,
            exp := some (now₀ + s.refresh_token_expire_days * 86400),
            jti := some j, type := some TOKEN_TYPE_REFRESH } s.secret_key)
        (some TOKEN_TYPE_REFRESH) (insert j inv) s.secret_key now₂ = none := by
      unfold verify_token
      cases hd : jwtDecode
          (Token.signed
            { sub := some sub,
              exp := some (now₀ + s.refresh_token_expire_days * 86400),
              jti := some j, type := some TOKEN_TYPE_REFRESH } s.secret_key)
          s.secret_key now₂ with
      | error e => rfl
      | ok q =>
        obtain ⟨hq, -⟩ := jwtDecode_signed_ok hd
        subst hq
        dsimp only
        rw [if_pos (jtiRevoked_true hj (Finset.mem_insert_self _ _))]
    rw [refresh_token_verify_none hv2]
    rfl
  · intro hne
    have hdec : jwtDecode
        (Token.signed
          { sub := some sub,
            exp := some (now₀ + s.refresh_token_expire_days * 86400),
            jti := some j, type := some TOKEN_TYPE_REFRESH } s.secret_key)
        s.secret_key now₂
        = .ok { sub := some sub,
                exp := some (now₀ + s.refresh_token_expire_days * 86400),
                jti := some j, type := some TOKEN_TYPE_REFRESH } := by
      refine jwtDecode_ok_of_unexpired ?_
      intro e' he'
      have h2 : some (now₀ + s.refresh_token_expire_days * 86400) = some e' := he'
      injection h2 with h3
      omega
    unfold verifyTokenE
    rw [hdec]
    dsimp only
    rw [if_pos (jtiRevoked_true hj (Finset.mem_insert_self _ _))]

/-- C1 witness: a concrete successful rotation followed by a failed replay of
the same refresh token. -/
theorem rotate_single_use_witness :
    "j1" ∈ (refresh_token (some (create_refresh_token "alice" "j1" 0
        demoSettings).1) demoDb "a1" "r1" demoSettings ∅ 0).2
    ∧ exceptIsOk (refresh_token (some (create_refresh_token "alice" "j1" 0
        demoSettings).1) demoDb "a2" "r2" demoSettings
        ((refresh_token (some (create_refresh_token "alice" "j1" 0
          demoSettings).1) demoDb "a1" "r1" demoSettings ∅ 0).2) 0).1 = false
    ∧ (¬0 + demoSettings.refresh_token_expire_days * 86400 < 0 →
        verifyTokenE (create_refresh_token "alice" "j1" 0 demoSettings).1
          (some TOKEN_TYPE_REFRESH)
          ((refresh_token (some (create_refresh_token "alice" "j1" 0
            demoSettings).1) demoDb "a1" "r1" demoSettings ∅ 0).2)
          demoSettings.secret_key 0 = .error .revoked) :=
  rotate_single_use "alice" "j1" 0 demoSettings demoDb demoDb
    "a1" "r1" "a2" "r2" ∅ 0 0
    ((create_access_token "alice" none "a1" 0 demoSettings).1,
     (create_refresh_token "alice" "r1" 0 demoSettings).1)
    (by decide) rfl

/-- C5: a well-signed unexpired token whose payload lacks a truthy jti (the
claim is absent or the empty string) escapes revocation entirely: it verifies
even when its jti value was previously passed to `invalidate_token`, the
refresh endpoint rotates it successfully without adding anything to the
registry, and therefore iterating the rotation any number of times leaves the
registry fixed and keeps succeeding. -/
theorem jtiless_token_skips_revocation (p : Payload) (tt : Option String)
    (inv : Finset String) (now n : Nat) (db : String → Option User)
    (aj rj : String) (s : Settings) (u : User)
    (hjti : strTruthy p.jti = false)
    (hdec : jwtDecode (Token.signed p s.secret_key) s.secret_key now = .ok p)
    (htt : typeMismatch tt p.type = false)
    (htype : p.type = some TOKEN_TYPE_REFRESH)
    (hsub : strTruthy p.sub = true)
    (hdb : db (p.sub.getD "") = some u)
    (hact : u.is_active = true) :
    verify_token (Token.signed p s.secret_key) tt
        (invalidate_token (p.jti.getD "") inv) s.secret_key now = some p
    ∧ (refresh_token (some (Token.signed p s.secret_key)) db aj rj s inv
        now).1
      = .ok ((create_access_token (p.sub.getD "") none aj now s).1,
             (create_refresh_token (p.sub.getD "") rj now s).1)
    ∧ (refresh_token (some (Token.signed p s.secret_key)) db aj rj s inv
        now).2 = inv
    ∧ (fun r => (refresh_token (some (Token.signed p s.secret_key))
        db aj rj s r now).2)^[n] inv = inv
    ∧ (refresh_token (some (Token.signed p s.secret_key)) db aj rj s
        ((fun r => (refresh_token (some (Token.signed p s.secret_key))
          db aj rj s r now).2)^[n] inv) now).1
      = .ok ((create_access_token (p.sub.getD "") none aj now s).1,
             (create_refresh_token (p.sub.getD "") rj now s).1) := by
  have hv : ∀ inv', verify_token (Token.signed p s.secret_key)
      (some TOKEN_TYPE_REFRESH) inv' s.secret_key now = some p :=
    fun inv' => verify_token_ok_of_decode hdec
      (jtiRevoked_false_of_falsy hjti inv')
      (by rw [htype]; exact typeMismatch_false_of_eq _)
  have hsucc : ∀ inv', refresh_token (some (Token.signed p s.secret_key))
      db aj rj s inv' now
      = (.ok ((create_access_token (p.sub.getD "") none aj now s).1,
              (create_refresh_token (p.sub.getD "") rj now s).1),
         revokeTruthyJti p.jti inv') :=
    fun inv' => refresh_token_success (hv inv') hsub hdb hact
  have hfix : ∀ inv', (refresh_token (some (Token.signed p s.secret_key))
      db aj rj s inv' now).2 = inv' := by
    intro inv'
    rw [hsucc inv']
    exact revokeTruthyJti_falsy hjti inv'
  have hiter : (fun r => (refresh_token (some (Token.signed p s.secret_key))
      db aj rj s r now).2)^[n] inv = inv :=
    Function.iterate_fixed (hfix inv) n
  refine ⟨?_, ?_, hfix inv, hiter, ?_⟩
  · exact verify_token_ok_of_decode hdec
      (jtiRevoked_false_of_falsy hjti _) htt
  · rw [hsucc inv]
  · rw [hiter, hsucc inv]

/-- C5 witness: a concrete refresh token carrying `jti = ""` verifies with
`""` revoked, rotates, and still rotates after three iterations. -/
theorem jtiless_token_skips_revocation_witness :
    verify_token (Token.signed demoJtilessPayload demoSettings.secret_key)
        (some TOKEN_TYPE_REFRESH)
        (invalidate_token (demoJtilessPayload.jti.getD "") ∅)
        demoSettings.secret_key 0 = some demoJtilessPayload
    ∧ (refresh_token (some (Token.signed demoJtilessPayload
        demoSettings.secret_key)) demoDb "a1" "r1" demoSettings ∅ 0).1
      = .ok ((create_access_token (demoJtilessPayload.sub.getD "") none "a1" 0
              demoSettings).1,
             (create_refresh_token (demoJtilessPayload.sub.getD "") "r1" 0
              demoSettings).1)
    ∧ (refresh_token (some (Token.signed demoJtilessPayload
        demoSettings.secret_key)) demoDb "a1" "r1" demoSettings ∅ 0).2 = ∅
    ∧ (fun r => (refresh_token (some (Token.signed demoJtilessPayload
        demoSettings.secret_key)) demoDb "a1" "r1" demoSettings r 0).2)^[3] ∅
      = ∅
    ∧ (refresh_token (some (Token.signed demoJtilessPayload
        demoSettings.secret_key)) demoDb "a1" "r1" demoSettings
        ((fun r => (refresh_token (some (Token.signed demoJtilessPayload
          demoSettings.secret_key)) demoDb "a1" "r1" demoSettings r 0).2)^[3]
          ∅) 0).1
      = .ok ((create_access_token (demoJtilessPayload.sub.getD "") none "a1" 0
              demoSettings).1,
             (create_refresh_token (demoJtilessPayload.sub.getD "") "r1" 0
              demoSettings).1) :=
  jtiless_token_skips_revocation demoJtilessPayload (some TOKEN_TYPE_REFRESH)
    ∅ 0 3 demoDb "a1" "r1" demoSettings { username := "alice", is_active := true }
    rfl rfl rfl rfl rfl rfl rfl

/-- C6: for every subject, every `expires_delta` (including the falsy zero
delta) and every fresh jti not in the revocation registry, verifying a freshly
issued access token with expected kind `access` at the issuance instant
succeeds and the returned claims carry the subject passed to issuance. -/
theorem verify_after_issue_succeeds (sub : String) (delta : Option Nat)
    (jti : String) (now : Nat) (s : Settings) (inv : Finset String)
    (h : jti ∉ inv) :
    (verify_token (create_access_token sub delta jti now s).1
        (some TOKEN_TYPE_ACCESS) inv s.secret_key now).isSome = true
    ∧ Option.map Payload.sub
        (verify_token (create_access_token sub delta jti now s).1
          (some TOKEN_TYPE_ACCESS) inv s.secret_key now)
      = some (some sub) := by
  obtain ⟨e, htok, hle⟩ := access_token_shape sub delta jti now s
  rw [htok]
  have hv : verify_token
      (Token.signed
        { sub := some sub, exp := some e, jti := some jti,
          type := some TOKEN_TYPE_ACCESS } s.secret_key)
      (some TOKEN_TYPE_ACCESS) inv s.secret_key now
      = some { sub := some sub, exp := some e, jti := some jti,
               type := some TOKEN_TYPE_ACCESS } := by
    refine verify_token_ok_of_decode (jwtDecode_ok_of_unexpired ?_) ?_ ?_
    · intro e' he'
      have h2 : some e = some e' := he'
      injection h2 with h3
      omega
    · exact jtiRevoked_false_of_notMem h
    · exact typeMismatch_false_of_eq TOKEN_TYPE_ACCESS
  rw [hv]
  exact ⟨rfl, rfl⟩

/-- C6 witness: the property at a concrete subject, delta, jti, clock and
empty registry. -/
theorem verify_after_issue_succeeds_witness :
    (verify_token (create_access_token "alice" none "j1" 0 demoSettings).1
        (some TOKEN_TYPE_ACCESS) ∅ demoSettings.secret_key 0).isSome = true
    ∧ Option.map Payload.sub
        (verify_token (create_access_token "alice" none "j1" 0 demoSettings).1
          (some TOKEN_TYPE_ACCESS) ∅ demoSettings.secret_key 0)
      = some (some "alice") :=
  verify_after_issue_succeeds "alice" none "j1" 0 demoSettings ∅ (by decide)

/-- C7: a token whose expiry is strictly in the past never verifies, whatever
the registry contains (in particular when its jti was never revoked), and the
failing check is the expiry one.  Every token the service issues is of this
form — signed claims with an `exp` — so the statement covers all issued
tokens. -/
theorem verify_expired_fails (p : Payload) (key : String) (tt : Option String)
    (inv : Finset String) (now e : Nat) (he : p.exp = some e) (hlt : e < now) :
    verify_token (Token.signed p key) tt inv key now = none
    ∧ verifyTokenE (Token.signed p key) tt inv key now = .error .expired := by
  have hdec : jwtDecode (Token.signed p key) key now
      = .error .expiredSignature := by
    unfold jwtDecode
    dsimp only
    rw [if_pos rfl, he]
    dsimp only
    rw [if_pos hlt]
  exact ⟨by unfold verify_token; rw [hdec],
    by unfold verifyTokenE; rw [hdec]⟩

/-- C7 witness: an expired concrete token fails verification with the expired
cause, over the empty registry. -/
theorem verify_expired_fails_witness :
    verify_token (Token.signed demoPayload demoSettings.secret_key)
        (some TOKEN_TYPE_ACCESS) ∅ demoSettings.secret_key 101 = none
    ∧ verifyTokenE (Token.signed demoPayload demoSettings.secret_key)
        (some TOKEN_TYPE_ACCESS) ∅ demoSettings.secret_key 101
      = .error .expired :=
  verify_expired_fails demoPayload demoSettings.secret_key
    (some TOKEN_TYPE_ACCESS) ∅ 101 100 rfl (by decide)

/-- C9: an access token never verifies with expected kind `refresh`, and a
refresh token never verifies with expected kind `access` — unconditionally the
result is `none`; and whenever the earlier checks pass (here: verification at
or before the issuance instant, jti unrevoked) the failing check is the type
one. -/
theorem wrong_kind_never_verifies (sub jti : String) (delta : Option Nat)
    (now₀ now now' : Nat) (s : Settings) (inv : Finset String)
    (hrev : jti ∉ inv) (hnow : now' ≤ now₀) :
    verify_token (create_access_token sub delta jti now₀ s).1
        (some TOKEN_TYPE_REFRESH) inv s.secret_key now = none
    ∧ verify_token (create_refresh_token sub jti now₀ s).1
        (some TOKEN_TYPE_ACCESS) inv s.secret_key now = none
    ∧ verifyTokenE (create_access_token sub delta jti now₀ s).1
        (some TOKEN_TYPE_REFRESH) inv s.secret_key now' = .error .wrongType
    ∧ verifyTokenE (create_refresh_token sub jti now₀ s).1
        (some TOKEN_TYPE_ACCESS) inv s.secret_key now' = .error .wrongType := by
  obtain ⟨e, htok, hle⟩ := access_token_shape sub delta jti now₀ s
  have htokR : (create_refresh_token sub jti now₀ s).1
      = Token.signed
          { sub := some sub,
            exp := some (now₀ + s.refresh_token_expire_days * 86400),
            jti := some jti, type := some TOKEN_TYPE_REFRESH }
          s.secret_key := rfl
  refine ⟨?_, ?_, ?_, ?_⟩
  · rw [htok]
    exact verify_token_wrong_type_none
      (by simp [TOKEN_TYPE_ACCESS, TOKEN_TYPE_REFRESH]) (by decide) inv now
  · rw [htokR]
    exact verify_token_wrong_type_none
      (by simp [TOKEN_TYPE_ACCESS, TOKEN_TYPE_REFRESH]) (by decide) inv now
  · rw [htok]
    refine verifyTokenE_wrong_type (jwtDecode_ok_of_unexpired ?_) ?_
      (by simp [TOKEN_TYPE_ACCESS, TOKEN_TYPE_REFRESH]) (by decide)
    · intro e' he'
      have h2 : some e = some e' := he'
      injection h2 with h3
      omega
    · exact jtiRevoked_false_of_notMem hrev
  · rw [htokR]
    refine verifyTokenE_wrong_type (jwtDecode_ok_of_unexpired ?_) ?_
      (by simp [TOKEN_TYPE_ACCESS, TOKEN_TYPE_REFRESH]) (by decide)
    · intro e' he'
      have h2 : some (now₀ + s.refresh_token_expire_days * 86400) = some e' := he'
      injection h2 with h3
      omega
    · exact jtiRevoked_false_of_notMem hrev

/-- C9 witness: both directions at a concrete fresh token pair and the empty
registry. -/
theorem wrong_kind_never_verifies_witness :
    verify_token (create_access_token "alice" none "j1" 0 demoSettings).1
        (some TOKEN_TYPE_REFRESH) ∅ demoSettings.secret_key 0 = none
    ∧ verify_token (create_refresh_token "alice" "j1" 0 demoSettings).1
        (some TOKEN_TYPE_ACCESS) ∅ demoSettings.secret_key 0 = none
    ∧ verifyTokenE (create_access_token "alice" none "j1" 0 demoSettings).1
        (some TOKEN_TYPE_REFRESH) ∅ demoSettings.secret_key 0
      = .error .wrongType
    ∧ verifyTokenE (create_refresh_token "alice" "j1" 0 demoSettings).1
        (some TOKEN_TYPE_ACCESS) ∅ demoSettings.secret_key 0
      = .error .wrongType :=
  wrong_kind_never_verifies "alice" "j1" none 0 0 0 demoSettings ∅
    (by decide) (by decide)

/-- C10: the revocation registry only grows.  Token issuance and verification
are pure in the embedding — they read the registry at most and return no
modified one — and each state-returning operation (`invalidate_token`, the
refresh endpoint's rotation, the logout endpoint's safe invalidation) returns
a superset of the registry it was given; no operation removes an entry. -/
theorem revocation_registry_monotone :
    (∀ jti inv, inv ⊆ invalidate_token jti inv)
    ∧ (∀ cookie db aj rj s inv now,
        inv ⊆ (refresh_token cookie db aj rj s inv now).2)
    ∧ (∀ tok tt inv key now, inv ⊆ safely_invalidate_token tok tt inv key now)
    ∧ (∀ ac rc inv key now, inv ⊆ logout ac rc inv key now) :=
  ⟨fun _ inv => Finset.subset_insert _ inv,
   fun cookie db aj rj s inv now => subset_refresh_token cookie db aj rj s inv now,
   fun tok tt inv key now => subset_safely_invalidate_token tok tt inv key now,
   fun ac rc inv key now =>
     Finset.Subset.trans
       (subset_safely_invalidate_token ac TOKEN_TYPE_ACCESS inv key now)
       (subset_safely_invalidate_token rc TOKEN_TYPE_REFRESH _ key now)⟩

end Papyrus
